import Mathlib

/-!
Verification of the `MeshParticleEmitter` of
`src/Particles/EmitterTypes/meshParticleEmitter.ts`.

The embedding follows the JavaScript semantics of the source file:
numbers are exact rationals extended with a `nan` element absorbing
every arithmetic operation — this models the JavaScript behaviour where
an out-of-bounds array read yields `undefined` and any arithmetic on
`undefined` or `NaN` yields `NaN`.  Random draws of `Math.random()` are
passed in explicitly as rationals in `[0, 1)`.
-/

set_option autoImplicit false

/-- A JavaScript number as it flows through the emitter: either an exact
rational or the absorbing non-numeric value (`NaN` / `undefined`). -/
inductive JSNum where
  | num (q : ℚ)
  | nan
deriving DecidableEq, Repr

namespace JSNum

/-- JavaScript addition: `NaN` absorbs. -/
def jadd : JSNum → JSNum → JSNum
  | num a, num b => num (a + b)
  | _, _ => nan

/-- JavaScript multiplication: `NaN` absorbs (in particular `0 * NaN = NaN`). -/
def jmul : JSNum → JSNum → JSNum
  | num a, num b => num (a * b)
  | _, _ => nan

instance : Add JSNum := ⟨jadd⟩

instance : Mul JSNum := ⟨jmul⟩

@[simp] theorem num_add_num (a b : ℚ) : num a + num b = num (a + b) := rfl

@[simp] theorem num_mul_num (a b : ℚ) : num a * num b = num (a * b) := rfl

@[simp] theorem nan_add (x : JSNum) : nan + x = nan := rfl

@[simp] theorem add_nan (x : JSNum) : x + nan = nan := by cases x <;> rfl

@[simp] theorem nan_mul (x : JSNum) : nan * x = nan := rfl

@[simp] theorem mul_nan (x : JSNum) : x * nan = nan := by cases x <;> rfl

end JSNum

/-- A three-component vector whose entries are JavaScript numbers; used for
the mutable `Vector3` references the emitter writes through
(`positionToUpdate`, `directionToUpdate`, `_storedNormal`). -/
structure JSVec3 where
  x : JSNum
  y : JSNum
  z : JSNum
deriving DecidableEq, Repr

/-- A `Vector3` holding genuine numbers, used for the configuration fields
`direction1` and `direction2`. -/
structure Vec3 where
  x : ℚ
  y : ℚ
  z : ℚ
deriving DecidableEq, Repr

/-- `Vec3.asArray`: the `[x, y, z]` array used by `serialize`. -/
def Vec3.asArray (v : Vec3) : List ℚ := [v.x, v.y, v.z]

/-- `Vector3.FromArrayToRef` as used by `parse` on a serialized direction
array.  Records are assumed well-formed (three entries) per the spec's
error-handling section; a missing entry is modelled by the default `0`. -/
def Vec3.fromArray (l : List ℚ) (offset : ℕ) : Vec3 :=
  ⟨l.getD offset 0, l.getD (offset + 1) 0, l.getD (offset + 2) 0⟩

/-- JavaScript truncation toward zero of a rational (the integer part of
`ToInt32` before wrapping); `Int` division truncates toward zero. -/
def jsTrunc (q : ℚ) : ℤ := q.num / (q.den : ℤ)

/-- JavaScript `| 0` (ToInt32): truncate toward zero, then wrap into 32-bit
two's complement. -/
def jsOrZero (q : ℚ) : ℤ := ((jsTrunc q + 2 ^ 31) % 2 ^ 32) - 2 ^ 31

/-- Read an index array at a (signed) integer position; an out-of-bounds
read yields `undefined`, modelled by `nan`. -/
def idxGet (l : List ℕ) (i : ℤ) : JSNum :=
  if 0 ≤ i ∧ i.toNat < l.length then JSNum.num (l.getD i.toNat 0)
  else JSNum.nan

/-- Read a float array at a JavaScript-number position: a non-integral,
negative, out-of-bounds or `NaN` position yields `undefined` (`nan`). -/
def arrGet (l : List ℚ) : JSNum → JSNum
  | JSNum.num q =>
      if q.den = 1 ∧ 0 ≤ q.num ∧ q.num.toNat < l.length then
        JSNum.num (l.getD q.num.toNat 0)
      else JSNum.nan
  | JSNum.nan => JSNum.nan

/-- `Vector3.FromArrayToRef` on a vertex buffer: reads three consecutive
entries starting at the given (possibly non-numeric) offset. -/
def vecFromArray (l : List ℚ) (offset : JSNum) : JSVec3 :=
  ⟨arrGet l offset, arrGet l (offset + JSNum.num 1), arrGet l (offset + JSNum.num 2)⟩

/-- The world matrix: modelled from the spec as the transform from emitter
space into world space — a linear 3×3 part plus a translation part.  (The
math library `Matrix` is an external collaborator; only its action on
points and directions matters here.) -/
structure WMatrix where
  m00 : ℚ
  m01 : ℚ
  m02 : ℚ
  m10 : ℚ
  m11 : ℚ
  m12 : ℚ
  m20 : ℚ
  m21 : ℚ
  m22 : ℚ
  t0 : ℚ
  t1 : ℚ
  t2 : ℚ
deriving DecidableEq, Repr

/-- Replace the translation part of a world matrix. -/
def WMatrix.setTranslation (m : WMatrix) (a b c : ℚ) : WMatrix :=
  { m with t0 := a, t1 := b, t2 := c }

/-- Modelled from the spec: `Vector3.TransformNormalFromFloatsToRef`
("transform the resulting vector as a direction (not a point) by the world
matrix") — the linear part of the world matrix acts, the translation is
ignored. -/
def transformNormalFromFloats (x y z : JSNum) (m : WMatrix) : JSVec3 :=
  ⟨x * JSNum.num m.m00 + y * JSNum.num m.m10 + z * JSNum.num m.m20,
   x * JSNum.num m.m01 + y * JSNum.num m.m11 + z * JSNum.num m.m21,
   x * JSNum.num m.m02 + y * JSNum.num m.m12 + z * JSNum.num m.m22⟩

/-- Modelled from the spec: `Vector3.TransformNormalToRef` — the normal
transform of a stored vector (translation ignored). -/
def transformNormalToRef (v : JSVec3) (m : WMatrix) : JSVec3 :=
  transformNormalFromFloats v.x v.y v.z m

/-- Modelled from the spec: `Vector3.TransformCoordinatesFromFloatsToRef`
("full coordinate transform, including translation"). -/
def transformCoordinatesFromFloats (x y z : JSNum) (m : WMatrix) : JSVec3 :=
  ⟨x * JSNum.num m.m00 + y * JSNum.num m.m10 + z * JSNum.num m.m20 + JSNum.num m.t0,
   x * JSNum.num m.m01 + y * JSNum.num m.m11 + z * JSNum.num m.m21 + JSNum.num m.t1,
   x * JSNum.num m.m02 + y * JSNum.num m.m12 + z * JSNum.num m.m22 + JSNum.num m.t2⟩

/-- Modelled from the spec: `Scalar.RandomRange` draws a uniform scalar
between the two bounds ("each in `[min(direction1.c, direction2.c),
max(direction1.c, direction2.c)]`"), parameterised here by the ambient
random draw `r ∈ [0, 1)`. -/
def scalarRandomRange (lo hi r : ℚ) : ℚ := lo + r * (hi - lo)

/-- Modelled from the spec: the mesh collaborator, "exposing index data,
and per-vertex-kind float data retrieval (position kind, normal kind, each
optionally absent)", plus the stable identifier used for serialization.
`getIndices` stands for `mesh.getIndices()`, `positionsData` and
`normalsData` for `mesh.getVerticesData(PositionKind / NormalKind)`. -/
structure AbstractMesh where
  id : String
  getIndices : Option (List ℕ)
  positionsData : Option (List ℚ)
  normalsData : Option (List ℚ)
deriving DecidableEq, Repr

/-- Modelled from the spec: the scene / mesh-lookup collaborator that
"resolves a mesh identifier string to a live mesh reference". -/
structure Scene where
  getLastMeshByID : String → Option AbstractMesh

/-- The serialized record shape produced by `serialize` and consumed by
`parse`. -/
structure SerializationRecord where
  type : String
  direction1 : List ℚ
  direction2 : List ℚ
  meshId : Option String
  useMeshNormalsForDirection : Bool
deriving DecidableEq, Repr

/-- The state of a `MeshParticleEmitter` instance. -/
structure MeshParticleEmitter where
  _indices : Option (List ℕ)
  _positions : Option (List ℚ)
  _normals : Option (List ℚ)
  _storedNormal : JSVec3
  direction1 : Vec3
  direction2 : Vec3
  useMeshNormalsForDirection : Bool
  mesh : Option AbstractMesh
deriving DecidableEq, Repr

namespace MeshParticleEmitter

/-- The constructor `new MeshParticleEmitter(mesh?)`: extracts the index,
position and normal snapshots when a mesh is supplied; fields take their
declared initial values. -/
def mkEmitter (mesh : Option AbstractMesh) : MeshParticleEmitter :=
  { _indices := match mesh with
      | some m => m.getIndices
      | none => none
    _positions := match mesh with
      | some m => m.positionsData
      | none => none
    _normals := match mesh with
      | some m => m.normalsData
      | none => none
    _storedNormal := ⟨JSNum.num 0, JSNum.num 0, JSNum.num 0⟩
    direction1 := ⟨0, 1, 0⟩
    direction2 := ⟨0, 1, 0⟩
    useMeshNormalsForDirection := true
    mesh := mesh }

/-- Line 80 of the source:
`let randomFaceIndex = 3 * Math.random() * (this._indices.length / 3) | 0;`
By JavaScript operator precedence `| 0` applies to the whole product. -/
def randomFaceIndexCalc (r : ℚ) (len : ℕ) : ℤ :=
  jsOrZero (3 * r * ((len : ℚ) / 3))

/-- Line 81: `let bu = Math.random();` -/
def baryBu (r1 : ℚ) : ℚ := r1

/-- Line 82: `let bv = Math.random() * (1.0 - bu);` -/
def baryBv (r1 r2 : ℚ) : ℚ := r2 * (1 - baryBu r1)

/-- Line 83: `let bw = 1.0 - bu - bv;` -/
def baryBw (r1 r2 : ℚ) : ℚ := 1 - baryBu r1 - baryBv r1 r2

/-- Fetch of one vertex of a buffer through the index array, as in
`Vector3.FromArrayToRef(buffer, this._indices[k] * 3, vertex)`
(lines 85-95 and 104-106 of the source). -/
def fetchVec (buf : List ℚ) (inds : List ℕ) (k : ℤ) : JSVec3 :=
  vecFromArray buf (idxGet inds k * JSNum.num 3)

/-- The componentwise barycentric interpolation
`bu * vertexA + bv * vertexB + bw * vertexC`
(lines 97-99 and 108-110 of the source). -/
def baryInterp (bu bv bw : ℚ) (a b c : JSVec3) : JSVec3 :=
  ⟨JSNum.num bu * a.x + JSNum.num bv * b.x + JSNum.num bw * c.x,
   JSNum.num bu * a.y + JSNum.num bv * b.y + JSNum.num bw * c.y,
   JSNum.num bu * a.z + JSNum.num bv * b.z + JSNum.num bw * c.z⟩

/-- `startPositionFunction(worldMatrix, positionToUpdate, particle)`.
The three `Math.random()` results it consumes are passed as
`rFace, r1, r2`; the result is the updated emitter state (the cached
normal may change) and the value left in `positionToUpdate`. -/
def startPositionFunction (e : MeshParticleEmitter) (worldMatrix : WMatrix)
    (positionToUpdate : JSVec3) (rFace r1 r2 : ℚ) :
    MeshParticleEmitter × JSVec3 :=
  match e._indices, e._positions with
  | some indices, some positions =>
    let randomFaceIndex := randomFaceIndexCalc rFace indices.length
    let bu := baryBu r1
    let bv := baryBv r1 r2
    let bw := baryBw r1 r2
    let vertexA := fetchVec positions indices randomFaceIndex
    let vertexB := fetchVec positions indices (randomFaceIndex + 1)
    let vertexC := fetchVec positions indices (randomFaceIndex + 2)
    let randomVertex := baryInterp bu bv bw vertexA vertexB vertexC
    let newPos := transformCoordinatesFromFloats randomVertex.x randomVertex.y
      randomVertex.z worldMatrix
    match e.useMeshNormalsForDirection, e._normals with
    | true, some normals =>
      let nA := fetchVec normals indices randomFaceIndex
      let nB := fetchVec normals indices (randomFaceIndex + 1)
      let nC := fetchVec normals indices (randomFaceIndex + 2)
      ({ e with _storedNormal := baryInterp bu bv bw nA nB nC }, newPos)
    | _, _ => (e, newPos)
  | _, _ => (e, positionToUpdate)

/-- `startDirectionFunction(worldMatrix, directionToUpdate, particle)`.
The three `Math.random()` results its range branch consumes are passed as
`rX, rY, rZ`; the result is the value left in `directionToUpdate`. -/
def startDirectionFunction (e : MeshParticleEmitter) (worldMatrix : WMatrix)
    (rX rY rZ : ℚ) : JSVec3 :=
  if e.useMeshNormalsForDirection && e._normals.isSome then
    transformNormalToRef e._storedNormal worldMatrix
  else
    let randX := scalarRandomRange e.direction1.x e.direction2.x rX
    let randY := scalarRandomRange e.direction1.y e.direction2.y rY
    let randZ := scalarRandomRange e.direction1.z e.direction2.z rZ
    transformNormalFromFloats (JSNum.num randX) (JSNum.num randY)
      (JSNum.num randZ) worldMatrix

/-- Modelled from the spec: `DeepCopier.DeepCopy` (the copier lives outside
this source tree) — "deep-copy all scalar/vector configuration fields
(direction1, direction2, useMeshNormalsForDirection) from the source
instance". -/
def deepCopy (src tgt : MeshParticleEmitter) : MeshParticleEmitter :=
  { tgt with
    direction1 := src.direction1
    direction2 := src.direction2
    useMeshNormalsForDirection := src.useMeshNormalsForDirection }

/-- `clone()`: construct a new emitter on the same mesh reference, then
copy the configuration fields onto it. -/
def clone (e : MeshParticleEmitter) : MeshParticleEmitter :=
  deepCopy e (mkEmitter e.mesh)

/-- `getClassName()`. -/
def getClassName : String := "MeshParticleEmitter"

/-- `serialize()`. -/
def serialize (e : MeshParticleEmitter) : SerializationRecord :=
  { type := getClassName
    direction1 := e.direction1.asArray
    direction2 := e.direction2.asArray
    meshId := e.mesh.map AbstractMesh.id
    useMeshNormalsForDirection := e.useMeshNormalsForDirection }

/-- `parse(serializationObject, scene)`.  `if (serializationObject.meshId)`
is JavaScript truthiness: an absent id or the empty string skips the
lookup; `scene.getLastMeshByID(id) || undefined` leaves the mesh absent
when the lookup fails. -/
def parse (e : MeshParticleEmitter) (r : SerializationRecord) (scene : Scene) :
    MeshParticleEmitter :=
  let e1 := { e with
    direction1 := Vec3.fromArray r.direction1 0
    direction2 := Vec3.fromArray r.direction2 0 }
  let e2 := match r.meshId with
    | some id => if id = "" then e1 else { e1 with mesh := scene.getLastMeshByID id }
    | none => e1
  { e2 with useMeshNormalsForDirection := r.useMeshNormalsForDirection }

end MeshParticleEmitter

/-- The face-start formula the specification (and claim C1) describes:
pick `t` uniformly in `[0, triangleCount)` with
`triangleCount = len(indices)/3` truncated to integer, and start the fetch
at `3 * t`.  Stated from the spec's words, for comparison with
`randomFaceIndexCalc` which embeds the source. -/
def specFaceIndex (r : ℚ) (len : ℕ) : ℤ :=
  3 * jsTrunc (r * ((len : ℚ) / 3))

open MeshParticleEmitter

/-! Concrete fixtures used by witnesses and counterexamples.  The square
mesh is the concrete scenario of the spec's testable-properties section:
two triangles `[0,1,2, 0,2,3]` over a unit square in the XY plane with all
normals `(0,0,1)`. -/

/-- The identity world matrix. -/
def idMat : WMatrix := ⟨1, 0, 0, 0, 1, 0, 0, 0, 1, 0, 0, 0⟩

/-- The spec's concrete square mesh. -/
def squareMesh : AbstractMesh :=
  { id := "square"
    getIndices := some [0, 1, 2, 0, 2, 3]
    positionsData := some [0, 0, 0, 1, 0, 0, 1, 1, 0, 0, 1, 0]
    normalsData := some [0, 0, 1, 0, 0, 1, 0, 0, 1, 0, 0, 1] }

/-- An emitter built on the square mesh. -/
def squareEmitter : MeshParticleEmitter := mkEmitter (some squareMesh)

/-- An emitter whose snapshot holds an empty index array (zero triangles),
with range-based direction mode. -/
def degenEmitter : MeshParticleEmitter :=
  { _indices := some []
    _positions := some [0, 0, 0]
    _normals := none
    _storedNormal := ⟨JSNum.num 0, JSNum.num 0, JSNum.num 0⟩
    direction1 := ⟨0, 1, 0⟩
    direction2 := ⟨0, 1, 0⟩
    useMeshNormalsForDirection := false
    mesh := none }

/-- An emitter whose index array names vertex `5` while the position array
holds only two vertices (vertexCount = 2). -/
def badIndexEmitter : MeshParticleEmitter :=
  { _indices := some [0, 1, 5]
    _positions := some [0, 0, 0, 1, 1, 1]
    _normals := none
    _storedNormal := ⟨JSNum.num 0, JSNum.num 0, JSNum.num 0⟩
    direction1 := ⟨0, 1, 0⟩
    direction2 := ⟨0, 1, 0⟩
    useMeshNormalsForDirection := false
    mesh := none }

/-- C1.  The source line 80 reads
`3 * Math.random() * (this._indices.length / 3) | 0`; JavaScript operator
precedence applies `| 0` to the whole product, so the face start index is
`trunc(r * len)` — any integer in `[0, len)` — not `3 * t` for a uniform
triangle index `t`.  At `len = 3` (one triangle) and draw `r = 1/2` the
computed start is `1`, not a multiple of `3`, while the claim's formula
gives `3 * t = 0`; the fetched triple is `indices[1], indices[2]` and the
out-of-bounds `indices[3]`. -/
theorem C1_face_start_not_multiple_of_three :
    randomFaceIndexCalc (1/2) 3 = 1 ∧
    randomFaceIndexCalc (1/2) 3 % 3 ≠ 0 ∧
    specFaceIndex (1/2) 3 = 0 ∧
    idxGet [0, 1, 2] (randomFaceIndexCalc (1/2) 3) = JSNum.num 1 ∧
    idxGet [0, 1, 2] (randomFaceIndexCalc (1/2) 3 + 2) = JSNum.nan := by
  norm_num [randomFaceIndexCalc, jsOrZero, jsTrunc, specFaceIndex, idxGet]

/-- C10.  With `n = 3` index entries and admissible draw `r = 3/4`, the
face start computed by line 80 is `2`, so `f + 2 = 4` falls past the end
of the index array and the read of `indices[f + 2]` yields `undefined`. -/
theorem C10_face_access_out_of_bounds :
    (0 : ℚ) ≤ 3/4 ∧ (3/4 : ℚ) < 1 ∧
    randomFaceIndexCalc (3/4) 3 = 2 ∧
    ¬ randomFaceIndexCalc (3/4) 3 + 2 < 3 ∧
    idxGet [0, 1, 2] (randomFaceIndexCalc (3/4) 3 + 2) = JSNum.nan := by
  norm_num [randomFaceIndexCalc, jsOrZero, jsTrunc, idxGet]

/-- C5: when the index array or the position array is absent (`null`), the
position call returns immediately: the emitter state (cached normal
included) and the output reference are returned untouched. -/
theorem C5_absent_buffers_noop (e : MeshParticleEmitter)
    (h : e._indices = none ∨ e._positions = none)
    (m : WMatrix) (p : JSVec3) (rFace r1 r2 : ℚ) :
    startPositionFunction e m p rFace r1 r2 = (e, p) := by
  obtain ⟨i, pos, n, s, d1, d2, fl, msh⟩ := e
  rcases h with h | h
  · simp only at h
    subst h
    cases pos <;> rfl
  · simp only at h
    subst h
    cases i <;> rfl

/-- Witness for C5 at a mesh-less emitter. -/
theorem C5_witness :
    (mkEmitter none)._indices = none ∧
    startPositionFunction (mkEmitter none) idMat
        ⟨JSNum.num 4, JSNum.num 5, JSNum.num 6⟩ 0 0 0
      = (mkEmitter none, ⟨JSNum.num 4, JSNum.num 5, JSNum.num 6⟩) :=
  ⟨rfl, C5_absent_buffers_noop (mkEmitter none) (Or.inl rfl) idMat
    ⟨JSNum.num 4, JSNum.num 5, JSNum.num 6⟩ 0 0 0⟩

/-- C7: for draws `r1, r2 ∈ [0, 1)`, the barycentric weights of lines
81-83 are all nonnegative and sum to one exactly. -/
theorem C7_barycentric_weights (r1 r2 : ℚ)
    (h1 : 0 ≤ r1 ∧ r1 < 1) (h2 : 0 ≤ r2 ∧ r2 < 1) :
    0 ≤ baryBu r1 ∧ 0 ≤ baryBv r1 r2 ∧ 0 ≤ baryBw r1 r2 ∧
    baryBu r1 + baryBv r1 r2 + baryBw r1 r2 = 1 := by
  unfold baryBw baryBv baryBu
  refine ⟨h1.1, ?_, ?_, by ring⟩
  · have hr1 : (0 : ℚ) ≤ 1 - r1 := by linarith [h1.2]
    exact mul_nonneg h2.1 hr1
  · nlinarith [h1.1, h1.2, h2.1, h2.2]

/-- Witness for C7 at `r1 = 1/2`, `r2 = 1/3`. -/
theorem C7_witness :
    ((0 : ℚ) ≤ 1/2 ∧ (1/2 : ℚ) < 1) ∧ ((0 : ℚ) ≤ 1/3 ∧ (1/3 : ℚ) < 1) ∧
    (0 ≤ baryBu (1/2) ∧ 0 ≤ baryBv (1/2) (1/3) ∧ 0 ≤ baryBw (1/2) (1/3) ∧
     baryBu (1/2) + baryBv (1/2) (1/3) + baryBw (1/2) (1/3) = 1) :=
  ⟨by norm_num, by norm_num,
   C7_barycentric_weights (1/2) (1/3) (by norm_num) (by norm_num)⟩

/-! Helper lemmas about `nan` propagation through the sampling pipeline. -/

@[simp] theorem idxGet_nil (k : ℤ) : idxGet [] k = JSNum.nan := by
  simp [idxGet]

@[simp] theorem arrGet_nan (l : List ℚ) : arrGet l JSNum.nan = JSNum.nan := rfl

@[simp] theorem vecFromArray_nan (l : List ℚ) :
    vecFromArray l JSNum.nan = ⟨JSNum.nan, JSNum.nan, JSNum.nan⟩ := by
  simp [vecFromArray]

@[simp] theorem baryInterp_nan (bu bv bw : ℚ) :
    baryInterp bu bv bw ⟨JSNum.nan, JSNum.nan, JSNum.nan⟩
      ⟨JSNum.nan, JSNum.nan, JSNum.nan⟩ ⟨JSNum.nan, JSNum.nan, JSNum.nan⟩
      = ⟨JSNum.nan, JSNum.nan, JSNum.nan⟩ := by
  simp [baryInterp]

@[simp] theorem transformCoordinates_nan (m : WMatrix) :
    transformCoordinatesFromFloats JSNum.nan JSNum.nan JSNum.nan m
      = ⟨JSNum.nan, JSNum.nan, JSNum.nan⟩ := by
  simp [transformCoordinatesFromFloats]

theorem fetchVec_nil (buf : List ℚ) (k : ℤ) :
    fetchVec buf [] k = ⟨JSNum.nan, JSNum.nan, JSNum.nan⟩ := by
  simp [fetchVec]

/-- C3 counterexample: on degenerate geometry the position call is not a
no-op.  With an empty index array, and likewise with an index (`5`)
reaching past the two stored vertices (fetched with barycentric weight
`bw = 1` at draws `r1 = r2 = 0`), the call overwrites the output reference
`(1, 2, 3)` with `NaN` components. -/
theorem C3_counterexample :
    (startPositionFunction degenEmitter idMat
        ⟨JSNum.num 1, JSNum.num 2, JSNum.num 3⟩ 0 0 0).2
      ≠ ⟨JSNum.num 1, JSNum.num 2, JSNum.num 3⟩ ∧
    (startPositionFunction degenEmitter idMat
        ⟨JSNum.num 1, JSNum.num 2, JSNum.num 3⟩ 0 0 0).2
      = ⟨JSNum.nan, JSNum.nan, JSNum.nan⟩ ∧
    (startPositionFunction badIndexEmitter idMat
        ⟨JSNum.num 1, JSNum.num 2, JSNum.num 3⟩ 0 0 0).2
      = ⟨JSNum.nan, JSNum.nan, JSNum.nan⟩ := by
  have hdegen : (startPositionFunction degenEmitter idMat
      ⟨JSNum.num 1, JSNum.num 2, JSNum.num 3⟩ 0 0 0).2
      = ⟨JSNum.nan, JSNum.nan, JSNum.nan⟩ := by
    norm_num [startPositionFunction, randomFaceIndexCalc, jsOrZero, jsTrunc,
      baryBu, baryBv, baryBw, idxGet, arrGet, vecFromArray, fetchVec,
      baryInterp, transformCoordinatesFromFloats, degenEmitter, idMat]
  have hbad : (startPositionFunction badIndexEmitter idMat
      ⟨JSNum.num 1, JSNum.num 2, JSNum.num 3⟩ 0 0 0).2
      = ⟨JSNum.nan, JSNum.nan, JSNum.nan⟩ := by
    norm_num [startPositionFunction, randomFaceIndexCalc, jsOrZero, jsTrunc,
      baryBu, baryBv, baryBw, idxGet, arrGet, vecFromArray, fetchVec,
      baryInterp, transformCoordinatesFromFloats, badIndexEmitter, idMat]
    simp
    norm_num
  refine ⟨?_, hdegen, hbad⟩
  rw [hdegen]
  simp

/-- C3 as amended: with an empty index array (and the position array
present) the call does not crash and does not touch the emitter state
unless normal mode is active with normals present — but it is not a no-op
on its output: it always writes a `NaN` position through the output
reference, and in normal mode with normals present it also overwrites the
cached normal with `NaN`. -/
theorem C3_amended_nan_write (e : MeshParticleEmitter) (ps : List ℚ)
    (hi : e._indices = some []) (hp : e._positions = some ps)
    (m : WMatrix) (p : JSVec3) (rFace r1 r2 : ℚ) :
    (startPositionFunction e m p rFace r1 r2).2
      = ⟨JSNum.nan, JSNum.nan, JSNum.nan⟩ ∧
    (e.useMeshNormalsForDirection = true → e._normals.isSome = true →
      (startPositionFunction e m p rFace r1 r2).1
        = { e with _storedNormal := ⟨JSNum.nan, JSNum.nan, JSNum.nan⟩ }) ∧
    (e.useMeshNormalsForDirection = false ∨ e._normals = none →
      (startPositionFunction e m p rFace r1 r2).1 = e) := by
  obtain ⟨i, pos, n, s, d1, d2, fl, msh⟩ := e
  simp only at hi hp
  subst hi
  subst hp
  have hface : randomFaceIndexCalc rFace ([] : List ℕ).length = 0 := by
    norm_num [randomFaceIndexCalc, jsOrZero, jsTrunc]
  cases fl <;> cases n <;>
    simp [startPositionFunction, hface, fetchVec_nil]

/-- Witness for C3 as amended, at the empty-index emitter. -/
theorem C3_amended_witness :
    degenEmitter._indices = some [] ∧
    degenEmitter._positions = some [0, 0, 0] ∧
    ((startPositionFunction degenEmitter idMat
        ⟨JSNum.num 1, JSNum.num 2, JSNum.num 3⟩ 0 0 0).2
      = ⟨JSNum.nan, JSNum.nan, JSNum.nan⟩ ∧
    (degenEmitter.useMeshNormalsForDirection = true →
        degenEmitter._normals.isSome = true →
      (startPositionFunction degenEmitter idMat
          ⟨JSNum.num 1, JSNum.num 2, JSNum.num 3⟩ 0 0 0).1
        = { degenEmitter with
            _storedNormal := ⟨JSNum.nan, JSNum.nan, JSNum.nan⟩ }) ∧
    (degenEmitter.useMeshNormalsForDirection = false ∨
        degenEmitter._normals = none →
      (startPositionFunction degenEmitter idMat
          ⟨JSNum.num 1, JSNum.num 2, JSNum.num 3⟩ 0 0 0).1 = degenEmitter)) :=
  ⟨rfl, rfl, C3_amended_nan_write degenEmitter [0, 0, 0] rfl rfl idMat
    ⟨JSNum.num 1, JSNum.num 2, JSNum.num 3⟩ 0 0 0⟩

/-- For a draw `r ∈ [0, 1)`, the range sampler stays between the two
bounds in either order. -/
theorem scalarRandomRange_mem (lo hi r : ℚ) (h0 : 0 ≤ r) (h1 : r < 1) :
    min lo hi ≤ scalarRandomRange lo hi r ∧
    scalarRandomRange lo hi r ≤ max lo hi := by
  unfold scalarRandomRange
  rcases le_total lo hi with hlh | hlh
  · rw [min_eq_left hlh, max_eq_right hlh]
    constructor
    · nlinarith [mul_nonneg h0 (sub_nonneg.2 hlh)]
    · nlinarith [mul_nonneg (by linarith : (0 : ℚ) ≤ 1 - r) (sub_nonneg.2 hlh)]
  · rw [min_eq_right hlh, max_eq_left hlh]
    constructor
    · nlinarith [mul_nonneg (by linarith : (0 : ℚ) ≤ 1 - r) (sub_nonneg.2 hlh)]
    · nlinarith [mul_nonneg h0 (sub_nonneg.2 hlh)]

/-- C6: with normal mode inactive or normals absent, each drawn component
lies in `[min(direction1.c, direction2.c), max(direction1.c,
direction2.c)]` for its axis (bounds in either order), and the output is
the drawn vector transformed as a direction — the translation part of the
world matrix does not affect it. -/
theorem C6_range_direction (e : MeshParticleEmitter)
    (h : e.useMeshNormalsForDirection = false ∨ e._normals = none)
    (m : WMatrix) (rX rY rZ : ℚ)
    (hX : 0 ≤ rX ∧ rX < 1) (hY : 0 ≤ rY ∧ rY < 1) (hZ : 0 ≤ rZ ∧ rZ < 1) :
    (min e.direction1.x e.direction2.x
        ≤ scalarRandomRange e.direction1.x e.direction2.x rX ∧
      scalarRandomRange e.direction1.x e.direction2.x rX
        ≤ max e.direction1.x e.direction2.x) ∧
    (min e.direction1.y e.direction2.y
        ≤ scalarRandomRange e.direction1.y e.direction2.y rY ∧
      scalarRandomRange e.direction1.y e.direction2.y rY
        ≤ max e.direction1.y e.direction2.y) ∧
    (min e.direction1.z e.direction2.z
        ≤ scalarRandomRange e.direction1.z e.direction2.z rZ ∧
      scalarRandomRange e.direction1.z e.direction2.z rZ
        ≤ max e.direction1.z e.direction2.z) ∧
    startDirectionFunction e m rX rY rZ
      = transformNormalFromFloats
          (JSNum.num (scalarRandomRange e.direction1.x e.direction2.x rX))
          (JSNum.num (scalarRandomRange e.direction1.y e.direction2.y rY))
          (JSNum.num (scalarRandomRange e.direction1.z e.direction2.z rZ)) m ∧
    (∀ a b c : ℚ, startDirectionFunction e (m.setTranslation a b c) rX rY rZ
        = startDirectionFunction e m rX rY rZ) := by
  refine ⟨scalarRandomRange_mem _ _ _ hX.1 hX.2,
    scalarRandomRange_mem _ _ _ hY.1 hY.2,
    scalarRandomRange_mem _ _ _ hZ.1 hZ.2, ?_, ?_⟩
  · obtain ⟨i, pos, n, s, d1, d2, fl, msh⟩ := e
    rcases h with h | h
    · simp only at h
      subst h
      rfl
    · simp only at h
      subst h
      cases fl <;> rfl
  · intro a b c
    obtain ⟨i, pos, n, s, d1, d2, fl, msh⟩ := e
    rcases h with h | h
    · simp only at h
      subst h
      rfl
    · simp only at h
      subst h
      cases fl <;> rfl

/-- An emitter in range-based direction mode with reversed bounds on the
x axis and equal bounds on the z axis. -/
def rangeEmitter : MeshParticleEmitter :=
  { _indices := none
    _positions := none
    _normals := none
    _storedNormal := ⟨JSNum.num 0, JSNum.num 0, JSNum.num 0⟩
    direction1 := ⟨2, 0, -1⟩
    direction2 := ⟨1, 3, -1⟩
    useMeshNormalsForDirection := false
    mesh := none }

/-- Witness for C6 at the range emitter with draws `1/2, 1/4, 0`. -/
theorem C6_witness :
    (rangeEmitter.useMeshNormalsForDirection = false ∨
      rangeEmitter._normals = none) ∧
    ((0 : ℚ) ≤ 1/2 ∧ (1/2 : ℚ) < 1) ∧ ((0 : ℚ) ≤ 1/4 ∧ (1/4 : ℚ) < 1) ∧
    ((0 : ℚ) ≤ 0 ∧ (0 : ℚ) < 1) ∧
    ((min rangeEmitter.direction1.x rangeEmitter.direction2.x
        ≤ scalarRandomRange rangeEmitter.direction1.x rangeEmitter.direction2.x (1/2) ∧
      scalarRandomRange rangeEmitter.direction1.x rangeEmitter.direction2.x (1/2)
        ≤ max rangeEmitter.direction1.x rangeEmitter.direction2.x) ∧
    (min rangeEmitter.direction1.y rangeEmitter.direction2.y
        ≤ scalarRandomRange rangeEmitter.direction1.y rangeEmitter.direction2.y (1/4) ∧
      scalarRandomRange rangeEmitter.direction1.y rangeEmitter.direction2.y (1/4)
        ≤ max rangeEmitter.direction1.y rangeEmitter.direction2.y) ∧
    (min rangeEmitter.direction1.z rangeEmitter.direction2.z
        ≤ scalarRandomRange rangeEmitter.direction1.z rangeEmitter.direction2.z 0 ∧
      scalarRandomRange rangeEmitter.direction1.z rangeEmitter.direction2.z 0
        ≤ max rangeEmitter.direction1.z rangeEmitter.direction2.z) ∧
    startDirectionFunction rangeEmitter idMat (1/2) (1/4) 0
      = transformNormalFromFloats
          (JSNum.num (scalarRandomRange rangeEmitter.direction1.x rangeEmitter.direction2.x (1/2)))
          (JSNum.num (scalarRandomRange rangeEmitter.direction1.y rangeEmitter.direction2.y (1/4)))
          (JSNum.num (scalarRandomRange rangeEmitter.direction1.z rangeEmitter.direction2.z 0)) idMat ∧
    (∀ a b c : ℚ,
      startDirectionFunction rangeEmitter (idMat.setTranslation a b c) (1/2) (1/4) 0
        = startDirectionFunction rangeEmitter idMat (1/2) (1/4) 0)) :=
  ⟨Or.inl rfl, by norm_num, by norm_num, by norm_num,
   C6_range_direction rangeEmitter (Or.inl rfl) idMat (1/2) (1/4) 0
     (by norm_num) (by norm_num) (by norm_num)⟩

/-- C2: with normal mode active and normals present, a position call
stores into the cached normal the interpolation of the selected triangle's
three vertex normals with the same barycentric weights as the position —
un-normalized and un-transformed — and the next direction call writes
exactly the normal transform (translation ignored) of that cached normal. -/
theorem C2_cached_normal_handoff (e : MeshParticleEmitter)
    (inds : List ℕ) (ps ns : List ℚ)
    (hi : e._indices = some inds) (hp : e._positions = some ps)
    (hn : e._normals = some ns) (hf : e.useMeshNormalsForDirection = true)
    (mPos mDir : WMatrix) (p : JSVec3) (rFace r1 r2 rX rY rZ : ℚ) :
    ((startPositionFunction e mPos p rFace r1 r2).1)._storedNormal
      = baryInterp (baryBu r1) (baryBv r1 r2) (baryBw r1 r2)
          (fetchVec ns inds (randomFaceIndexCalc rFace inds.length))
          (fetchVec ns inds (randomFaceIndexCalc rFace inds.length + 1))
          (fetchVec ns inds (randomFaceIndexCalc rFace inds.length + 2)) ∧
    startDirectionFunction (startPositionFunction e mPos p rFace r1 r2).1
        mDir rX rY rZ
      = transformNormalToRef
          ((startPositionFunction e mPos p rFace r1 r2).1)._storedNormal mDir ∧
    (∀ a b c : ℚ,
      startDirectionFunction (startPositionFunction e mPos p rFace r1 r2).1
          (mDir.setTranslation a b c) rX rY rZ
        = transformNormalToRef
            ((startPositionFunction e mPos p rFace r1 r2).1)._storedNormal
            (mDir.setTranslation a b c)) := by
  obtain ⟨i, pos, n, s, d1, d2, fl, msh⟩ := e
  simp only at hi hp hn hf
  subst hi
  subst hp
  subst hn
  subst hf
  exact ⟨rfl, rfl, fun a b c => rfl⟩

/-- Witness for C2 on the spec's square mesh, identity world matrix,
face draw `0` and barycentric draws `r1 = r2 = 1/2`. -/
theorem C2_witness :
    squareEmitter._indices = some [0, 1, 2, 0, 2, 3] ∧
    squareEmitter._positions = some [0, 0, 0, 1, 0, 0, 1, 1, 0, 0, 1, 0] ∧
    squareEmitter._normals = some [0, 0, 1, 0, 0, 1, 0, 0, 1, 0, 0, 1] ∧
    squareEmitter.useMeshNormalsForDirection = true ∧
    (((startPositionFunction squareEmitter idMat
        ⟨JSNum.num 9, JSNum.num 9, JSNum.num 9⟩ 0 (1/2) (1/2)).1)._storedNormal
      = baryInterp (baryBu (1/2)) (baryBv (1/2) (1/2)) (baryBw (1/2) (1/2))
          (fetchVec [0, 0, 1, 0, 0, 1, 0, 0, 1, 0, 0, 1] [0, 1, 2, 0, 2, 3]
            (randomFaceIndexCalc 0 ([0, 1, 2, 0, 2, 3] : List ℕ).length))
          (fetchVec [0, 0, 1, 0, 0, 1, 0, 0, 1, 0, 0, 1] [0, 1, 2, 0, 2, 3]
            (randomFaceIndexCalc 0 ([0, 1, 2, 0, 2, 3] : List ℕ).length + 1))
          (fetchVec [0, 0, 1, 0, 0, 1, 0, 0, 1, 0, 0, 1] [0, 1, 2, 0, 2, 3]
            (randomFaceIndexCalc 0 ([0, 1, 2, 0, 2, 3] : List ℕ).length + 2)) ∧
    startDirectionFunction (startPositionFunction squareEmitter idMat
        ⟨JSNum.num 9, JSNum.num 9, JSNum.num 9⟩ 0 (1/2) (1/2)).1 idMat 0 0 0
      = transformNormalToRef
          (((startPositionFunction squareEmitter idMat
            ⟨JSNum.num 9, JSNum.num 9, JSNum.num 9⟩ 0 (1/2) (1/2)).1)._storedNormal)
          idMat ∧
    (∀ a b c : ℚ,
      startDirectionFunction (startPositionFunction squareEmitter idMat
          ⟨JSNum.num 9, JSNum.num 9, JSNum.num 9⟩ 0 (1/2) (1/2)).1
          (idMat.setTranslation a b c) 0 0 0
        = transformNormalToRef
            (((startPositionFunction squareEmitter idMat
              ⟨JSNum.num 9, JSNum.num 9, JSNum.num 9⟩ 0 (1/2) (1/2)).1)._storedNormal)
            (idMat.setTranslation a b c))) :=
  ⟨rfl, rfl, rfl, rfl,
   C2_cached_normal_handoff squareEmitter [0, 1, 2, 0, 2, 3]
     [0, 0, 0, 1, 0, 0, 1, 1, 0, 0, 1, 0] [0, 0, 1, 0, 0, 1, 0, 0, 1, 0, 0, 1]
     rfl rfl rfl rfl idMat idMat ⟨JSNum.num 9, JSNum.num 9, JSNum.num 9⟩
     0 (1/2) (1/2) 0 0 0⟩

/-- A scene resolving exactly the id `"square"` to the square mesh. -/
def sceneOne : Scene :=
  ⟨fun i => if i = "square" then some squareMesh else none⟩

/-- A serialized record carrying the square mesh id. -/
def recWithMesh : SerializationRecord :=
  { type := "MeshParticleEmitter"
    direction1 := [1, 2, 3]
    direction2 := [4, 5, 6]
    meshId := some ("square")
    useMeshNormalsForDirection := false }

/-- C4 counterexample: parsing a record with a resolvable `meshId` into a
fresh (mesh-less) emitter sets the `mesh` reference but does **not**
re-extract the snapshot — the cached index/position/normal arrays stay
absent even though the resolved mesh carries them, so sampling after the
parse is still a no-op. -/
theorem C4_counterexample :
    (parse (mkEmitter none) recWithMesh sceneOne).mesh = some squareMesh ∧
    squareMesh.getIndices = some [0, 1, 2, 0, 2, 3] ∧
    squareMesh.positionsData = some [0, 0, 0, 1, 0, 0, 1, 1, 0, 0, 1, 0] ∧
    (parse (mkEmitter none) recWithMesh sceneOne)._indices = none ∧
    (parse (mkEmitter none) recWithMesh sceneOne)._positions = none ∧
    (parse (mkEmitter none) recWithMesh sceneOne)._normals = none ∧
    (startPositionFunction (parse (mkEmitter none) recWithMesh sceneOne)
        idMat ⟨JSNum.num 7, JSNum.num 8, JSNum.num 9⟩ 0 0 0).2
      = ⟨JSNum.num 7, JSNum.num 8, JSNum.num 9⟩ := by
  refine ⟨?_, rfl, rfl, ?_, ?_, ?_, ?_⟩ <;>
    simp [parse, mkEmitter, recWithMesh, sceneOne, startPositionFunction]

/-- C4 as amended: `parse` restores `direction1`, `direction2` and
`useMeshNormalsForDirection` from the record and, for a present non-empty
`meshId`, sets the mesh reference to the scene lookup result (leaving it
absent when the lookup fails) — but it re-extracts nothing: the snapshot
arrays and the cached normal keep their previous values. -/
theorem C4_amended_parse_no_reextraction (e : MeshParticleEmitter)
    (rec : SerializationRecord) (scene : Scene) (id : String)
    (hid : rec.meshId = some id) (hne : id ≠ "") :
    (parse e rec scene).direction1 = Vec3.fromArray rec.direction1 0 ∧
    (parse e rec scene).direction2 = Vec3.fromArray rec.direction2 0 ∧
    (parse e rec scene).useMeshNormalsForDirection
      = rec.useMeshNormalsForDirection ∧
    (parse e rec scene).mesh = scene.getLastMeshByID id ∧
    (parse e rec scene)._indices = e._indices ∧
    (parse e rec scene)._positions = e._positions ∧
    (parse e rec scene)._normals = e._normals ∧
    (parse e rec scene)._storedNormal = e._storedNormal := by
  obtain ⟨ty, dd1, dd2, mid, flg⟩ := rec
  simp only at hid
  subst hid
  simp [parse, hne]

/-- Witness for C4 as amended: parsing the square-mesh record into the
square emitter replaces the configuration but leaves the snapshot as it
was. -/
theorem C4_amended_witness :
    recWithMesh.meshId = some ("square") ∧ "square" ≠ "" ∧
    ((parse squareEmitter recWithMesh sceneOne).direction1
        = Vec3.fromArray recWithMesh.direction1 0 ∧
    (parse squareEmitter recWithMesh sceneOne).direction2
        = Vec3.fromArray recWithMesh.direction2 0 ∧
    (parse squareEmitter recWithMesh sceneOne).useMeshNormalsForDirection
        = recWithMesh.useMeshNormalsForDirection ∧
    (parse squareEmitter recWithMesh sceneOne).mesh
        = sceneOne.getLastMeshByID ("square") ∧
    (parse squareEmitter recWithMesh sceneOne)._indices
        = squareEmitter._indices ∧
    (parse squareEmitter recWithMesh sceneOne)._positions
        = squareEmitter._positions ∧
    (parse squareEmitter recWithMesh sceneOne)._normals
        = squareEmitter._normals ∧
    (parse squareEmitter recWithMesh sceneOne)._storedNormal
        = squareEmitter._storedNormal) :=
  ⟨rfl, by simp,
   C4_amended_parse_no_reextraction squareEmitter recWithMesh sceneOne
     ("square") rfl (by simp)⟩

/-- C8: `serialize` produces exactly the record
`{ type := "MeshParticleEmitter", direction1 := [x,y,z],
direction2 := [x,y,z], meshId := optional id, useMeshNormalsForDirection }`
and parsing it into a fresh emitter (under any scene) reproduces
`direction1`, `direction2` and `useMeshNormalsForDirection`. -/
theorem C8_serialize_shape_and_roundtrip (e : MeshParticleEmitter)
    (scene : Scene) :
    serialize e
      = { type := "MeshParticleEmitter"
          direction1 := [e.direction1.x, e.direction1.y, e.direction1.z]
          direction2 := [e.direction2.x, e.direction2.y, e.direction2.z]
          meshId := e.mesh.map AbstractMesh.id
          useMeshNormalsForDirection := e.useMeshNormalsForDirection } ∧
    (parse (mkEmitter none) (serialize e) scene).direction1 = e.direction1 ∧
    (parse (mkEmitter none) (serialize e) scene).direction2 = e.direction2 ∧
    (parse (mkEmitter none) (serialize e) scene).useMeshNormalsForDirection
      = e.useMeshNormalsForDirection := by
  refine ⟨rfl, ?_, ?_, ?_⟩ <;>
  · obtain ⟨i, pos, n, s, ⟨x1, y1, z1⟩, ⟨x2, y2, z2⟩, fl, msh⟩ := e
    cases msh with
    | none =>
        simp [parse, serialize, getClassName, Vec3.fromArray, Vec3.asArray,
          mkEmitter]
    | some mm =>
        by_cases hid : mm.id = "" <;>
          simp [parse, serialize, getClassName, Vec3.fromArray, Vec3.asArray,
            mkEmitter, hid]

/-- C9: `clone` builds a new emitter on the same mesh reference — the
constructor re-extracts a fresh snapshot from that mesh — and copies
`direction1`, `direction2`, `useMeshNormalsForDirection`, so the clone's
serialized record equals the original's. -/
theorem C9_clone_config_and_serialization (e : MeshParticleEmitter) :
    (clone e).mesh = e.mesh ∧
    (clone e)._indices = e.mesh.bind AbstractMesh.getIndices ∧
    (clone e)._positions = e.mesh.bind AbstractMesh.positionsData ∧
    (clone e)._normals = e.mesh.bind AbstractMesh.normalsData ∧
    (clone e).direction1 = e.direction1 ∧
    (clone e).direction2 = e.direction2 ∧
    (clone e).useMeshNormalsForDirection = e.useMeshNormalsForDirection ∧
    serialize (clone e) = serialize e := by
  obtain ⟨i, pos, n, s, d1, d2, fl, msh⟩ := e
  cases msh <;> simp [clone, deepCopy, mkEmitter, serialize]
